import Mathlib

/-!
# Verification of the science-assessment generation controller

Shallow embedding of the generation controller in `streamlit_app.py`:
the `get_response` call signature and its call sites, the Cluster
fixed-decomposition branch, the per-item branches (Evidence-Based and the
Constructed Response / Multiple Choice / Multiple Select / Technology
Enhanced branch), the adaptive batch loop of the final `else` branch with
its regex marker scan, the result assembly into a document (one paragraph
per line of each returned batch), the single-slot result cache held in
session state, and the reference loader.
-/

set_option autoImplicit false

/-- Models Python `str.split` with separator `"\n"` on the character list:
no collapsing, an empty input yields one empty piece, a trailing newline
yields a trailing empty piece. -/
def splitLinesAux : List Char → List (List Char)
  | [] => [[]]
  | c :: cs =>
    if c = '\n' then [] :: splitLinesAux cs
    else
      match splitLinesAux cs with
      | [] => [[c]]
      | l :: ls => (c :: l) :: ls

/-- Python `text.split("\n")`, as used both on each batch result (one
paragraph per line) and to count lines of the accumulated output. -/
def splitLines (s : String) : List String :=
  (splitLinesAux s.data).map (fun l => String.mk l)

/-- Value of a digit run, as Python `int` applied to the matched group. -/
def digitsToNat (ds : List Char) : Nat :=
  ds.foldl (fun a c => 10 * a + (c.toNat - 48)) 0

/-- Try to match the regex `Item (\d+):` anchored at the head of `l`:
the literal label `"Item "`, then one or more digits, then a colon.
Returns the matched integer and the remainder after the colon.  (The
regex's `\d+` is greedy and a shorter digit run would be followed by a
digit rather than `:`, so taking the maximal digit run is exact.) -/
def matchItemAt (l : List Char) : Option (Nat × List Char) :=
  if "Item ".data.isPrefixOf l then
    let ds := (l.drop 5).takeWhile Char.isDigit
    match (l.drop 5).dropWhile Char.isDigit with
    | c :: rest => if ds ≠ [] ∧ c = ':' then some (digitsToNat ds, rest) else none
    | [] => none
  else none

/-- Left-to-right non-overlapping scan for `Item (\d+):`, as
`re.finditer` performs: on a match resume after it, otherwise advance one
character.  The fuel is the input length; every step consumes at least
one character, so the fuel never runs out before the input does. -/
def scanMarkersAux : Nat → List Char → List Nat
  | 0, _ => []
  | fuel + 1, l =>
    match l with
    | [] => []
    | _ :: cs =>
      match matchItemAt l with
      | some (n, rest) => n :: scanMarkersAux fuel rest
      | none => scanMarkersAux fuel cs

/-- `[int(m.group(1)) for m in re.finditer(r"Item (\d+):", text)]`, in
textual order. -/
def findMarkers (s : String) : List Nat :=
  scanMarkersAux s.data.length s.data

/-- `batch_size = 10` of the adaptive batch loop. -/
def batch_size : Nat := 10

/-- `end = min(current + batch_size - 1, total)`. -/
def upperBound (current total : Nat) : Nat :=
  min (current + batch_size - 1) total

/-- Cursor update of the adaptive batch loop: if the marker scan found
matches, the next `current` is `int(matches[-1].group(1)) + 1` (the
textually last match), else `end + 1`. -/
def nextCursor (e : Nat) (text : String) : Nat :=
  match (findMarkers text).getLast? with
  | some lastItem => lastItem + 1
  | none => e + 1

/-- The parameter list of `get_response(grade, item_type, num_items,
standards, will_do)` — exactly five parameters, no `*args` or
`**kwargs`. -/
def getResponseParams : List String :=
  ["grade", "item_type", "num_items", "standards", "will_do"]

/-- A call site of `get_response`: how many positional arguments it
passes and which keyword names it uses. -/
structure CallSite where
  numPositional : Nat
  keywords : List String
  deriving DecidableEq, Repr

/-- Python call semantics for a function without `*args`/`**kwargs`:
the call raises `TypeError` when more positional arguments are passed
than there are parameters, or a keyword does not name a parameter. -/
def callRaisesTypeError (params : List String) (c : CallSite) : Bool :=
  params.length < c.numPositional || c.keywords.any (fun k => !(params.contains k))

/-- The Cluster-branch call sites: seven positional arguments
`(grade, unit, type, count, standards, will_do, "")` plus the keywords
`item_start=`, `item_end=`, `batch_num=`, `te_type=`. -/
def clusterSite : CallSite :=
  ⟨7, ["item_start", "item_end", "batch_num", "te_type"]⟩

/-- The per-item call site `get_response(grade, item_type, 1, standards,
will_do)` of the Evidence-Based and CR/MC/MS/TE branches: five positional
arguments, no keywords. -/
def perItemSite : CallSite := ⟨5, []⟩

/-- The adaptive-loop call site `get_response(grade, unit, item_type,
end - current + 1, standards, will_do, "")`: seven positional arguments,
no keywords. -/
def adaptiveSite : CallSite := ⟨7, []⟩

/-- One attempted sub-request: the item-type label passed down, the item
count requested from the model, and the TE interaction subtype. -/
structure SubRequest where
  itemLabel : String
  numItems : Nat
  teSub : String
  deriving DecidableEq, Repr

/-- State accumulated by one top-level generation: the sub-requests that
actually reached the completion client, the `all_results` string, and the
document's paragraphs (one per line of each batch). -/
structure RunState where
  issued : List SubRequest
  allResults : String
  paragraphs : List String
  deriving DecidableEq, Repr

def initState : RunState := ⟨[], "", []⟩

/-- Failure kinds of one generation: `typeErr` models the `TypeError` a
mismatched `get_response` call raises; `completion` models a failure of
the completion client.  Either propagates to the top-level handler. -/
inductive GenError where
  | typeErr
  | completion
  deriving DecidableEq, Repr

/-- Run a list of attempted `get_response` calls in order.  A call whose
site mismatches the five-parameter signature raises before the completion
client is contacted; otherwise the completion oracle `resp` is consulted
(indexed by how many completions were requested so far) and, on success,
the text is appended to `all_results` followed by `"\n\n"` while each of
its lines becomes one document paragraph. -/
def runCalls (resp : Nat → Except Unit String) :
    List (CallSite × SubRequest) → Nat → RunState → Except GenError RunState
  | [], _, st => Except.ok st
  | (site, q) :: rest, k, st =>
    if callRaisesTypeError getResponseParams site then Except.error GenError.typeErr
    else
      match resp k with
      | Except.error _ => Except.error GenError.completion
      | Except.ok text =>
          runCalls resp rest (k + 1)
            ⟨st.issued ++ [q], st.allResults ++ text ++ "\n\n",
              st.paragraphs ++ splitLines text⟩

/-- `random_types = ["MC", "MS", "TE"]` of the Cluster branch. -/
def randomTypes : List String := ["MC", "MS", "TE"]

/-- The four TE subtypes the random draw chooses among. -/
def teSubtypes : List String :=
  [" - Drag-and-Drop", " - Hot-Spot", " - Inline-Choice", " - Graphing"]

/-- `te_type_val`: the TE subtype accompanies a random draw only when the
drawn type is `"TE"`. -/
def randTeSub (randType tePick : String) : String :=
  if randType = "TE" then tePick else ""

/-- The six `get_response` attempts the Cluster branch makes for one
cluster unit, in order: one call for 2 MC, one for 2 MS, one TE
Drag-and-Drop, one TE Hot-Spot, then two single random items whose types
`r1, r2` (and TE subtype picks `t1, t2`) come from `random.choice`. -/
def clusterUnitCalls (r1 r2 t1 t2 : String) : List SubRequest :=
  [⟨"MC", 2, ""⟩, ⟨"MS", 2, ""⟩,
    ⟨"TE", 1, " - Drag-and-Drop"⟩, ⟨"TE", 1, " - Hot-Spot"⟩,
    ⟨r1, 1, randTeSub r1 t1⟩, ⟨r2, 1, randTeSub r2 t2⟩]

/-- All Cluster-branch call attempts for `numClusters` cluster units,
with the random draws supplied by the streams `r` (item types) and `t`
(TE subtype picks), two per cluster unit.  Every attempt uses the
mismatched `clusterSite`. -/
def clusterAttempts (numClusters : Nat) (r t : Nat → String) :
    List (CallSite × SubRequest) :=
  (List.range numClusters).flatMap (fun c =>
    (clusterUnitCalls (r (2 * c)) (r (2 * c + 1)) (t (2 * c)) (t (2 * c + 1))).map
      (fun q => (clusterSite, q)))

/-- The per-item branches issue one `get_response(grade, item_type, 1,
standards, will_do)` call per requested item. -/
def perItemAttempts (item_type : String) (num_items : Nat) :
    List (CallSite × SubRequest) :=
  List.replicate num_items (perItemSite, ⟨item_type, 1, ""⟩)

/-- The adaptive batch loop of the final `else` branch: while
`current ≤ total`, request the range `[current, end]`, then move the
cursor by the marker scan.  The call site passes seven positional
arguments, so each iteration would raise before contacting the
completion client.  The source loop has no fuel; the fuel only bounds
the number of modelled iterations and is irrelevant here because the
first iteration always raises. -/
def adaptiveLoop (resp : Nat → Except Unit String) (item_type : String)
    (total : Nat) : Nat → Nat → Nat → RunState → Except GenError RunState
  | 0, _, _, st => Except.ok st
  | fuel + 1, current, k, st =>
    if current ≤ total then
      let e := upperBound current total
      if callRaisesTypeError getResponseParams adaptiveSite then
        Except.error GenError.typeErr
      else
        match resp k with
        | Except.error _ => Except.error GenError.completion
        | Except.ok text =>
            adaptiveLoop resp item_type total fuel (nextCursor e text) (k + 1)
              ⟨st.issued ++ [⟨item_type, e - current + 1, ""⟩],
                st.allResults ++ text ++ "\n\n",
                st.paragraphs ++ splitLines text⟩
    else Except.ok st

/-- One top-level generation run: the branch dispatch on `item_type` of
the source, with the random draws `r`, `t` (used only by the Cluster
branch) and the completion oracle `resp`. -/
def generate (item_type : String) (num_items : Nat) (r t : Nat → String)
    (resp : Nat → Except Unit String) : Except GenError RunState :=
  if item_type = "Cluster" then
    runCalls resp (clusterAttempts num_items r t) 0 initState
  else if item_type = "Evidence-Based" then
    runCalls resp (perItemAttempts item_type num_items) 0 initState
  else if item_type = "Constructed Response" ∨ item_type = "Multiple Choice" ∨
      item_type = "Multiple Select" ∨ item_type = "Technology Enhanced" then
    runCalls resp (perItemAttempts item_type num_items) 0 initState
  else
    adaptiveLoop resp item_type num_items num_items 1 0 initState

/-- The parameter tuple `(grade, unit, item_type, num_items, standards,
will_do)` the cache is keyed by. -/
structure Params where
  grade : String
  unit : String
  item_type : String
  num_items : Nat
  standards : String
  will_do : String
  deriving DecidableEq, Repr

/-- `st.session_state['last_params']` and `st.session_state['last_results']`
(the latter holding `(all_results, file_name, buffer)`, with the document
buffer represented by its paragraphs). -/
structure SessionState where
  last_params : Option Params
  last_results : Option (String × String × List String)
  deriving DecidableEq, Repr

/-- The `file_name` each branch derives from the request parameters. -/
def fileName (p : Params) : String :=
  if p.item_type = "Cluster" then
    p.grade ++ " " ++ p.unit ++ " " ++ p.item_type ++ " Items.docx"
  else if p.item_type = "Evidence-Based" then
    p.grade ++ " " ++ p.unit ++ " " ++ p.item_type ++ " Sets.docx"
  else if p.item_type = "Constructed Response" ∨ p.item_type = "Multiple Choice" ∨
      p.item_type = "Multiple Select" ∨ p.item_type = "Technology Enhanced" then
    p.grade ++ " " ++ p.unit ++ " " ++ p.item_type ++ " Items.docx"
  else
    p.grade ++ " " ++ p.unit ++ " " ++ p.item_type ++ " Item Types.docx"

/-- What one page render does at the user boundary: reuse the cached
result (no model call), run a generation successfully, show the
top-level error handler's message (`st.error` plus `logger.error`, both
with the traceback), or neither. -/
inductive RenderAction where
  | reuse (results : String × String × List String)
  | generated (results : String × String × List String)
  | errorShown (e : GenError)
  | idle
  deriving DecidableEq, Repr

/-- The generation half of a render: only when `last_params` equals the
current tuple does the `try` block run; success stores the result in the
cache slot, an exception leaves the slot as it was and reports the
failure. -/
def renderGenerate (st1 : SessionState) (p : Params) (r t : Nat → String)
    (resp : Nat → Except Unit String) : SessionState × RenderAction :=
  if st1.last_params = some p then
    match generate p.item_type p.num_items r t resp with
    | Except.ok run =>
        (⟨st1.last_params, some (run.allResults, fileName p, run.paragraphs)⟩,
          RenderAction.generated (run.allResults, fileName p, run.paragraphs))
    | Except.error e => (st1, RenderAction.errorShown e)
  else (st1, RenderAction.idle)

/-- The body of the script after the button: reuse the stored result iff
`last_params == params and last_results is not None`, otherwise fall
through to the generation check. -/
def renderCore (st1 : SessionState) (p : Params) (r t : Nat → String)
    (resp : Nat → Except Unit String) : SessionState × RenderAction :=
  match st1.last_results with
  | some res =>
      if st1.last_params = some p then (st1, RenderAction.reuse res)
      else renderGenerate st1 p r t resp
  | none => renderGenerate st1 p r t resp

/-- One page render: clicking Generate first stores the current tuple and
clears the result slot, then the cache check and possible generation run. -/
def render (st : SessionState) (p : Params) (clicked : Bool)
    (r t : Nat → String) (resp : Nat → Except Unit String) :
    SessionState × RenderAction :=
  renderCore (if clicked then ⟨some p, none⟩ else st) p r t resp

/-- Filesystem model for the reference loader: the text
`extract_pdf_content` yields for a path, `none` when extraction fails. -/
def Filesystem : Type := String → Option String

/-- `load_references(grade)`: reads the two fixed paths
`reference_materials/3D NGSS.pdf` and `reference_materials/DOK Levels.pdf`
(`or ""` turns a failed extraction into the empty string); the `grade`
argument is never used. -/
def load_references (fs : Filesystem) (grade : String) : String × String :=
  ((fs "reference_materials/3D NGSS.pdf").getD "",
    (fs "reference_materials/DOK Levels.pdf").getD "")

/-- The `all_results` accumulation over the batch texts `texts i`,
`texts (i+1)`, …: each batch followed by the `"\n\n"` separator. -/
def appendedText (texts : Nat → String) : Nat → Nat → String
  | _, 0 => ""
  | i, n + 1 => texts i ++ "\n\n" ++ appendedText texts (i + 1) n

/-- The document paragraphs produced by the batch texts `texts i`,
`texts (i+1)`, …: the lines of each batch, separators excluded. -/
def appendedParas (texts : Nat → String) : Nat → Nat → List String
  | _, 0 => []
  | i, n + 1 => splitLines (texts i) ++ appendedParas texts (i + 1) n

/-- The total number of newline-delimited lines across the batch texts
`texts i`, …, `texts (i+n-1)`. -/
def totalLines (texts : Nat → String) : Nat → Nat → Nat
  | _, 0 => 0
  | i, n + 1 => (splitLines (texts i)).length + totalLines texts (i + 1) n

theorem appendedParas_length (texts : Nat → String) :
    ∀ (n i : Nat), (appendedParas texts i n).length = totalLines texts i n := by
  intro n
  induction n with
  | zero => intro i; rfl
  | succ m ih => intro i; simp [appendedParas, totalLines, ih]

/-- When no call site mismatches the signature and every completion
succeeds, `runCalls` succeeds and appends every attempted sub-request,
every batch text (with its separator), and every batch's lines. -/
theorem runCalls_all_ok (texts : Nat → String) :
    ∀ (attempts : List (CallSite × SubRequest)),
      (∀ a ∈ attempts, callRaisesTypeError getResponseParams a.1 = false) →
      ∀ (i : Nat) (st0 : RunState),
        runCalls (fun k => Except.ok (texts k)) attempts i st0 =
          Except.ok ⟨st0.issued ++ attempts.map Prod.snd,
            st0.allResults ++ appendedText texts i attempts.length,
            st0.paragraphs ++ appendedParas texts i attempts.length⟩ := by
  intro attempts
  induction attempts with
  | nil =>
    intro _ i st0
    simp [runCalls, appendedText, appendedParas, String.append_empty]
  | cons a rest ih =>
    intro h i st0
    obtain ⟨site, q⟩ := a
    have hs : callRaisesTypeError getResponseParams site = false :=
      h _ (List.mem_cons_self _ _)
    rw [runCalls, if_neg (by simp [hs])]
    show runCalls (fun k => Except.ok (texts k)) rest (i + 1)
        ⟨st0.issued ++ [q], st0.allResults ++ texts i ++ "\n\n",
          st0.paragraphs ++ splitLines (texts i)⟩ = _
    rw [ih (fun b hb => h b (List.mem_cons_of_mem _ hb)) (i + 1)]
    simp [appendedText, appendedParas, List.append_assoc, String.append_assoc]

/-- When no call site mismatches the signature but the completion client
fails on the `k`-th consulted call (all earlier ones succeeding), the
whole run aborts with a completion failure and no state is returned. -/
theorem runCalls_first_fail (resp : Nat → Except Unit String) :
    ∀ (attempts : List (CallSite × SubRequest)) (i k : Nat) (st0 : RunState),
      (∀ a ∈ attempts, callRaisesTypeError getResponseParams a.1 = false) →
      k < attempts.length →
      resp (i + k) = Except.error () →
      (∀ j, j < k → ∃ s, resp (i + j) = Except.ok s) →
      runCalls resp attempts i st0 = Except.error GenError.completion := by
  intro attempts
  induction attempts with
  | nil =>
    intro i k st0 _ hk _ _
    simp at hk
  | cons a rest ih =>
    intro i k st0 h hk he hok
    obtain ⟨site, q⟩ := a
    have hs : callRaisesTypeError getResponseParams site = false :=
      h _ (List.mem_cons_self _ _)
    rw [runCalls, if_neg (by simp [hs])]
    cases k with
    | zero =>
      have : resp i = Except.error () := by simpa using he
      rw [this]
    | succ m =>
      obtain ⟨s, hsome⟩ := hok 0 (Nat.succ_pos m)
      have hsome' : resp i = Except.ok s := by simpa using hsome
      rw [hsome']
      exact ih (i + 1) m _ (fun b hb => h b (List.mem_cons_of_mem _ hb))
        (by simpa using Nat.lt_of_succ_lt_succ hk)
        (by have : i + 1 + m = i + (m + 1) := by omega
            rw [this]; exact he)
        (fun j hj => by
          have : i + 1 + j = i + (j + 1) := by omega
          rw [this]; exact hok (j + 1) (Nat.succ_lt_succ hj))

/-- Every attempt of the Cluster branch uses the mismatched call site. -/
theorem clusterAttempts_site (n : Nat) (r t : Nat → String) :
    ∀ a ∈ clusterAttempts n r t, a.1 = clusterSite := by
  intro a ha
  simp only [clusterAttempts, List.mem_flatMap, List.mem_map] at ha
  obtain ⟨c, -, q, -, rfl⟩ := ha
  rfl

theorem clusterAttempts_length (n : Nat) (r t : Nat → String) :
    (clusterAttempts n r t).length = 6 * n := by
  induction n with
  | zero => rfl
  | succ m ih =>
    unfold clusterAttempts at ih ⊢
    rw [List.range_succ, List.flatMap_append, List.length_append, ih]
    simp [clusterUnitCalls]
    omega

/-- A non-empty attempt list whose head raises aborts immediately with a
`TypeError`, whatever the completion oracle would have answered. -/
theorem runCalls_head_raises (resp : Nat → Except Unit String)
    (attempts : List (CallSite × SubRequest)) (i : Nat) (st0 : RunState)
    (hne : attempts ≠ [])
    (hhd : ∀ a ∈ attempts, a.1 = clusterSite) :
    runCalls resp attempts i st0 = Except.error GenError.typeErr := by
  cases attempts with
  | nil => exact absurd rfl hne
  | cons a rest =>
    obtain ⟨site, q⟩ := a
    have hsite : site = clusterSite := hhd _ (List.mem_cons_self _ _)
    subst hsite
    rw [runCalls, if_pos (by decide)]

/-- The per-item branches' call sites all match the signature. -/
theorem perItem_no_raise (it : String) (n : Nat) :
    ∀ a ∈ perItemAttempts it n, callRaisesTypeError getResponseParams a.1 = false := by
  intro a ha
  rw [List.eq_of_mem_replicate ha]
  show callRaisesTypeError getResponseParams perItemSite = false
  decide

/-- The dispatch sends Evidence-Based and the four per-item types to the
per-item loop. -/
theorem generate_per_item (it : String) (n : Nat) (r t : Nat → String)
    (resp : Nat → Except Unit String)
    (hit : it = "Evidence-Based" ∨ it = "Constructed Response" ∨
      it = "Multiple Choice" ∨ it = "Multiple Select" ∨ it = "Technology Enhanced") :
    generate it n r t resp = runCalls resp (perItemAttempts it n) 0 initState := by
  rcases hit with rfl | rfl | rfl | rfl | rfl <;>
    · unfold generate
      rw [if_neg (by decide)]
      first
      | rw [if_pos rfl]
      | rw [if_neg (by decide), if_pos (by decide)]

/-! Concrete inputs used by counterexamples and witnesses. -/

def rW : Nat → String := fun _ => "MC"

def tW : Nat → String := fun _ => ""

def respOkW : Nat → Except Unit String := fun _ => Except.ok "Item 1: ok"

def respAW : Nat → Except Unit String := fun _ => Except.ok "A"

def respEW : Nat → Except Unit String := fun _ => Except.error ()

def respFail1 : Nat → Except Unit String :=
  fun k => if k = 0 then Except.ok "A" else Except.error ()

def pMC3 : Params := ⟨"6", "1", "Multiple Choice", 3, "std", "wd"⟩

def pMC4 : Params := ⟨"6", "1", "Multiple Choice", 4, "std", "wd"⟩

def pMS5 : Params := ⟨"7", "2", "Multiple Select", 5, "s2", "w2"⟩

def pMS6 : Params := ⟨"7", "2", "Multiple Select", 6, "s2", "w2"⟩

def pW8 : Params := ⟨"8", "3", "Multiple Choice", 2, "s3", "w3"⟩

/-- Claim C10: `load_references` ignores its `grade` argument — with the
filesystem contents held fixed, any two grades yield the same pair of
reference texts, because the same two fixed PDF paths are read
regardless of grade. -/
theorem C10_grade_ignored (fs : Filesystem) (g1 g2 : String) :
    load_references fs g1 = load_references fs g2 := rfl

/-- Claim C7: in the adaptive resume loop, when a sub-batch's returned
text contains no recognizable marker, the cursor advances by exactly
`upperBound − cursor + 1`, i.e. the next sub-batch would start at
`upperBound + 1` — the controller assumes the full requested range was
produced. -/
theorem C7_no_marker_full_advance (current total : Nat) (text : String)
    (hct : current ≤ total) (hm : findMarkers text = []) :
    nextCursor (upperBound current total) text =
      current + (upperBound current total - current + 1) ∧
    nextCursor (upperBound current total) text = upperBound current total + 1 := by
  have he : nextCursor (upperBound current total) text = upperBound current total + 1 := by
    unfold nextCursor
    rw [hm]
    rfl
  have hge : current ≤ upperBound current total := by
    unfold upperBound batch_size
    omega
  exact ⟨by rw [he]; omega, he⟩

/-- Witness for C7: at cursor 11 of 25 requested items, a marker-free
response advances the cursor past the whole sub-batch range. -/
theorem C7_no_marker_full_advance_w :
    nextCursor (upperBound 11 25) "The model produced prose without labels." =
      11 + (upperBound 11 25 - 11 + 1) ∧
    nextCursor (upperBound 11 25) "The model produced prose without labels." =
      upperBound 11 25 + 1 :=
  C7_no_marker_full_advance 11 25 "The model produced prose without labels."
    (by decide) (by decide)

/-- Claim C3 fails on the code: the adaptive loop takes
`int(matches[-1].group(1))`, the textually last marker, not the maximum.
On out-of-order markers `Item 2:` then `Item 1:` the scan yields
`[2, 1]`, so the next start index is `1 + 1 = 2`, whereas the claimed
`max + 1` is `3`. -/
theorem C3_cex :
    findMarkers "Item 2: a\nItem 1: b" = [2, 1] ∧
    nextCursor 10 "Item 2: a\nItem 1: b" = 2 ∧
    (findMarkers "Item 2: a\nItem 1: b").foldr Nat.max 0 + 1 = 3 ∧
    (2 : Nat) ≠ 3 :=
  ⟨by decide, by decide, by decide, by decide⟩

/-- Claim C3 amended: for every returned sub-batch text containing at
least one recognizable marker, the controller sets the next sub-batch's
start index to (the textually last matched marker integer) + 1; this
equals the maximum when markers are in order (duplicates included) but
not when they are out of order. -/
theorem C3_last_marker (e : Nat) (t : String) (m : Nat)
    (h : (findMarkers t).getLast? = some m) :
    nextCursor e t = m + 1 := by
  unfold nextCursor
  rw [h]

/-- Witness for the amended C3 at a single-marker text. -/
theorem C3_last_marker_w : nextCursor 10 "Item 7: q" = 8 :=
  C3_last_marker 10 "Item 7: q" 7 (by decide)

/-- Claim C6 fails on the code: the scan's regex is `Item (\d+):` only,
so a text whose markers all use the `Question N:` form yields no match
and the cursor falls back to `upperBound + 1` (here 11) instead of being
set from the highest matched integer (which would give 3). -/
theorem C6_cex :
    findMarkers "Question 1: a\nQuestion 2: b" = [] ∧
    nextCursor 10 "Question 1: a\nQuestion 2: b" = 11 :=
  ⟨by decide, by decide⟩

/-- Claim C6 amended: the marker scan recognizes only the literal label
`Item ` followed by an integer and a colon; a sub-batch text whose
markers use only the `Question N:` form finds no marker, and the cursor
is then set to `upperBound + 1` by the no-marker fallback. -/
theorem C6_item_label_only :
    findMarkers "Item 4: a" = [4] ∧
    findMarkers "Question 1: a\nQuestion 2: b" = [] ∧
    ∀ e : Nat, nextCursor e "Question 1: a\nQuestion 2: b" = e + 1 := by
  refine ⟨by decide, by decide, fun e => ?_⟩
  unfold nextCursor
  rw [show (findMarkers "Question 1: a\nQuestion 2: b").getLast? = none from by decide]

/-- Claim C2: `get_response` accepts exactly five parameters, but every
Cluster-branch call passes seven positional arguments plus the keywords
`item_start`, `item_end`, `batch_num`, `te_type`, so the very first
sub-request raises a `TypeError`.  The outcome is the same constant for
every completion oracle `resp` — the completion capability is never
contacted — and the request takes the top-level error path, yielding no
document. -/
theorem C2_cluster_aborts (n : Nat) (r t : Nat → String)
    (resp : Nat → Except Unit String) (hn : 1 ≤ n) :
    generate "Cluster" n r t resp = Except.error GenError.typeErr ∧
    getResponseParams.length = 5 ∧
    clusterSite.numPositional = 7 ∧
    clusterSite.keywords = ["item_start", "item_end", "batch_num", "te_type"] ∧
    callRaisesTypeError getResponseParams clusterSite = true := by
  refine ⟨?_, rfl, rfl, rfl, by decide⟩
  unfold generate
  rw [if_pos rfl]
  refine runCalls_head_raises resp _ 0 initState ?_ (clusterAttempts_site n r t)
  intro hnil
  have hlen := clusterAttempts_length n r t
  rw [hnil] at hlen
  simp at hlen
  omega

/-- Witness for C2 at one requested cluster, with an oracle that would
fail if it were ever consulted. -/
theorem C2_cluster_aborts_w :
    generate "Cluster" 1 rW tW respEW = Except.error GenError.typeErr ∧
    getResponseParams.length = 5 ∧
    clusterSite.numPositional = 7 ∧
    clusterSite.keywords = ["item_start", "item_end", "batch_num", "te_type"] ∧
    callRaisesTypeError getResponseParams clusterSite = true :=
  C2_cluster_aborts 1 rW tW respEW (by decide)

/-- Claim C4 fails on the code: one cluster unit produces six
`get_response` attempts covering eight items — the two MC items and the
two MS items are each requested in a single call, so the attempt sizes
are 2,2,1,1,1,1 — not eight sub-requests; moreover, because every
attempt mismatches the five-parameter signature, the run aborts at once
and zero sub-requests reach the completion client. -/
theorem C4_cex :
    (clusterUnitCalls "MC" "MC" "" "").length = 6 ∧
    (6 : Nat) ≠ 8 ∧
    generate "Cluster" 1 rW tW respEW = Except.error GenError.typeErr :=
  ⟨rfl, by decide, rfl⟩

/-- Claim C4 amended: for every Cluster generation, the branch as
written attempts exactly six sub-requests per cluster unit, of sizes
2, 2, 1, 1, 1, 1: two multiple-choice in one call, two multiple-select
in one call, one technology-enhanced Drag-and-Drop, one
technology-enhanced Hot-Spot, then two single items of randomly drawn
type (with a randomly drawn subtype accompanying a TE draw); and every
such attempt uses the call site that mismatches the five-parameter
signature, so none of them actually reaches the completion client. -/
theorem C4_cluster_six_attempts (r t : Nat → String) (n : Nat) :
    (clusterAttempts n r t).length = 6 * n ∧
    (clusterUnitCalls (r 0) (r 1) (t 0) (t 1)).map SubRequest.numItems =
      [2, 2, 1, 1, 1, 1] ∧
    (clusterUnitCalls (r 0) (r 1) (t 0) (t 1)).map SubRequest.itemLabel =
      ["MC", "MS", "TE", "TE", r 0, r 1] ∧
    (clusterUnitCalls (r 0) (r 1) (t 0) (t 1)).map SubRequest.teSub =
      ["", "", " - Drag-and-Drop", " - Hot-Spot",
        randTeSub (r 0) (t 0), randTeSub (r 1) (t 1)] ∧
    callRaisesTypeError getResponseParams clusterSite = true :=
  ⟨clusterAttempts_length n r t, rfl, rfl, rfl, by decide⟩

/-- Claim C1 fails on the code: the non-Cluster item types offered by
the UI never take the batched path — the Multiple Choice branch issues
one single-item sub-request per requested item.  With
`totalRequested = 3` (and each single-item sub-batch's returned marker
matching its range) it issues 3 sub-requests, while
`ceil(3 / 10) = 1`. -/
theorem C1_cex :
    (generate "Multiple Choice" 3 rW tW respOkW =
      Except.ok ⟨[⟨"Multiple Choice", 1, ""⟩, ⟨"Multiple Choice", 1, ""⟩,
          ⟨"Multiple Choice", 1, ""⟩],
        "Item 1: ok\n\nItem 1: ok\n\nItem 1: ok\n\n",
        ["Item 1: ok", "Item 1: ok", "Item 1: ok"]⟩) ∧
    ([⟨"Multiple Choice", 1, ""⟩, ⟨"Multiple Choice", 1, ""⟩,
        ⟨"Multiple Choice", 1, ""⟩] : List SubRequest).length = 3 ∧
    (3 + batch_size - 1) / batch_size = 1 ∧
    (3 : Nat) ≠ 1 :=
  ⟨rfl, rfl, by decide, by decide⟩

/-- Claim C1 amended: for every item type other than Cluster that the
dispatch handles (Evidence-Based, Constructed Response, Multiple Choice,
Multiple Select, Technology Enhanced) and every requested count, the
controller issues exactly `totalRequested` sub-requests, each asking the
completion client for exactly one item; the `ceil(totalRequested / 10)`
batching with per-call limit fixed at 10 exists only in the final `else`
branch, which no item type the UI offers can reach. -/
theorem C1_one_subrequest_per_item (it : String) (n : Nat)
    (r t texts : Nat → String)
    (hit : it = "Evidence-Based" ∨ it = "Constructed Response" ∨
      it = "Multiple Choice" ∨ it = "Multiple Select" ∨
      it = "Technology Enhanced") :
    ∃ st', generate it n r t (fun k => Except.ok (texts k)) = Except.ok st' ∧
      st'.issued = List.replicate n ⟨it, 1, ""⟩ ∧
      st'.issued.length = n ∧
      ∀ q ∈ st'.issued, q.numItems = 1 := by
  rw [generate_per_item it n r t _ hit]
  refine ⟨_, runCalls_all_ok texts (perItemAttempts it n) (perItem_no_raise it n) 0 initState,
    ?_, ?_, ?_⟩
  · simp [perItemAttempts, initState, List.map_replicate]
  · simp [perItemAttempts, initState, List.map_replicate]
  · intro q hq
    simp only [perItemAttempts, initState, List.map_replicate, List.nil_append] at hq
    rw [List.eq_of_mem_replicate hq]

/-- Witness for the amended C1: two Constructed Response items issue two
single-item sub-requests. -/
theorem C1_one_subrequest_per_item_w :
    ∃ st', generate "Constructed Response" 2 rW tW (fun k => Except.ok (tW k)) =
        Except.ok st' ∧
      st'.issued = List.replicate 2 ⟨"Constructed Response", 1, ""⟩ ∧
      st'.issued.length = 2 ∧
      ∀ q ∈ st'.issued, q.numItems = 1 :=
  C1_one_subrequest_per_item "Constructed Response" 2 rW tW tW (Or.inr (Or.inl rfl))

/-- Claim C9 fails on the code: document paragraphs come only from each
batch's own lines; the `"\n\n"` separators appended to `all_results`
never become paragraphs.  One successful batch `"A"` yields one
paragraph, while the accumulated text `"A\n\n"` — the appended batch
text including its blank separator lines — has three newline-delimited
lines. -/
theorem C9_cex :
    generate "Multiple Choice" 1 rW tW respAW =
      Except.ok ⟨[⟨"Multiple Choice", 1, ""⟩], "A\n\n", ["A"]⟩ ∧
    (splitLines "A\n\n").length = 3 ∧
    (["A"] : List String).length = 1 ∧
    (1 : Nat) ≠ 3 :=
  ⟨rfl, by decide, rfl, by decide⟩

/-- Claim C9 amended: after a successful generation, the document's
paragraph count equals the total number of newline-delimited lines
across all appended batch texts, the blank separator lines excluded —
each batch contributes exactly its own line count, and the separators
exist only inside the accumulated `all_results` string. -/
theorem C9_paragraphs_eq_batch_lines (it : String) (n : Nat)
    (r t texts : Nat → String)
    (hit : it = "Evidence-Based" ∨ it = "Constructed Response" ∨
      it = "Multiple Choice" ∨ it = "Multiple Select" ∨
      it = "Technology Enhanced") :
    ∃ st', generate it n r t (fun k => Except.ok (texts k)) = Except.ok st' ∧
      st'.paragraphs.length = totalLines texts 0 n := by
  rw [generate_per_item it n r t _ hit]
  refine ⟨_, runCalls_all_ok texts (perItemAttempts it n) (perItem_no_raise it n) 0 initState,
    ?_⟩
  simp [perItemAttempts, initState, appendedParas_length]

/-- Witness for the amended C9 with two batches of text `"MC"`. -/
theorem C9_paragraphs_eq_batch_lines_w :
    ∃ st', generate "Multiple Select" 2 rW tW (fun k => Except.ok (rW k)) =
        Except.ok st' ∧
      st'.paragraphs.length = totalLines rW 0 2 :=
  C9_paragraphs_eq_batch_lines "Multiple Select" 2 rW tW rW
    (Or.inr (Or.inr (Or.inr (Or.inl rfl))))

/-- Claim C8: any sub-batch failure aborts the entire top-level request —
the run yields only the error, so text accumulated from prior successful
sub-batches of the same request is discarded and never returned; the
result-cache slot (cleared by the Generate click) stays empty; and the
failure is reported at the user boundary and logged (`errorShown` models
the `st.error` and `logger.error` calls, each carrying the message and
the full traceback). -/
theorem C8_failure_discards_all (st : SessionState) (p : Params)
    (r t : Nat → String) (resp : Nat → Except Unit String) (k : Nat)
    (hit : p.item_type = "Evidence-Based" ∨ p.item_type = "Constructed Response" ∨
      p.item_type = "Multiple Choice" ∨ p.item_type = "Multiple Select" ∨
      p.item_type = "Technology Enhanced")
    (hk : k < p.num_items)
    (he : resp k = Except.error ())
    (hok : ∀ j, j < k → ∃ s, resp j = Except.ok s) :
    render st p true r t resp =
      (⟨some p, none⟩, RenderAction.errorShown GenError.completion) := by
  have hgen : generate p.item_type p.num_items r t resp =
      Except.error GenError.completion := by
    rw [generate_per_item _ _ r t resp hit]
    exact runCalls_first_fail resp (perItemAttempts p.item_type p.num_items) 0 k initState
      (perItem_no_raise _ _)
      (by simpa [perItemAttempts] using hk)
      (by simpa using he)
      (fun j hj => by simpa using hok j hj)
  show renderCore ⟨some p, none⟩ p r t resp = _
  simp [renderCore, renderGenerate, hgen]

/-- Witness for C8: two Multiple Choice items where the second completion
call fails — the whole request ends on the error path with an empty
result slot. -/
theorem C8_failure_discards_all_w :
    render ⟨none, none⟩ pW8 true rW tW respFail1 =
      (⟨some pW8, none⟩, RenderAction.errorShown GenError.completion) :=
  C8_failure_discards_all ⟨none, none⟩ pW8 rW tW respFail1 1
    (Or.inr (Or.inr (Or.inl rfl)))
    (by decide)
    rfl
    (fun j hj => by
      cases j with
      | zero => exact ⟨"A", rfl⟩
      | succ m => exact absurd hj (by omega))

/-- The generation path of a render never produces a cache reuse. -/
theorem renderGenerate_not_reuse (st1 : SessionState) (p : Params)
    (r t : Nat → String) (resp : Nat → Except Unit String)
    (res : String × String × List String) :
    (renderGenerate st1 p r t resp).2 ≠ RenderAction.reuse res := by
  unfold renderGenerate
  split
  · cases hg : generate p.item_type p.num_items r t resp with
    | error e => simp [hg]
    | ok run => simp [hg]
  · simp

/-- Claim C5 fails on the code: changing a single field (here the count)
neither invalidates the cached entry nor forces regeneration — the
render is a no-op keeping both the old key and the old result, and
reverting the field afterwards reuses the stale entry without invoking
the model (the oracle here would fail if it were ever consulted). -/
theorem C5_cex :
    render ⟨some pMC3, some ("OLD", "f.docx", ["OLD"])⟩ pMC4 false rW tW respEW =
      (⟨some pMC3, some ("OLD", "f.docx", ["OLD"])⟩, RenderAction.idle) ∧
    render ⟨some pMC3, some ("OLD", "f.docx", ["OLD"])⟩ pMC3 false rW tW respEW =
      (⟨some pMC3, some ("OLD", "f.docx", ["OLD"])⟩,
        RenderAction.reuse ("OLD", "f.docx", ["OLD"])) :=
  ⟨rfl, rfl⟩

/-- Claim C5 amended: the stored result is reused, without invoking the
model, exactly when Generate was not just clicked, the stored key equals
the current parameter tuple, and a stored result exists; and when the
current tuple differs from the stored key the render changes nothing —
the cached entry survives and no regeneration is triggered (regeneration
happens only through a Generate click, which itself clears the stored
result). -/
theorem C5_reuse_iff :
    (∀ (st : SessionState) (p : Params) (clicked : Bool) (r t : Nat → String)
        (resp : Nat → Except Unit String) (res : String × String × List String),
      (render st p clicked r t resp).2 = RenderAction.reuse res ↔
        clicked = false ∧ st.last_params = some p ∧ st.last_results = some res) ∧
    (∀ (st : SessionState) (p : Params) (r t : Nat → String)
        (resp : Nat → Except Unit String),
      st.last_params ≠ some p → render st p false r t resp = (st, RenderAction.idle)) := by
  constructor
  · intro st p clicked r t resp res
    cases clicked with
    | true =>
      constructor
      · intro h
        exact absurd h (renderGenerate_not_reuse ⟨some p, none⟩ p r t resp res)
      · rintro ⟨h, -, -⟩
        exact Bool.noConfusion h
    | false =>
      show (renderCore st p r t resp).2 = _ ↔ _
      cases hres : st.last_results with
      | none =>
        simp only [renderCore, hres]
        constructor
        · intro h
          exact absurd h (renderGenerate_not_reuse st p r t resp res)
        · rintro ⟨-, -, h⟩
          exact Option.noConfusion h
      | some res' =>
        simp only [renderCore, hres]
        by_cases hlp : st.last_params = some p
        · rw [if_pos hlp]
          simp [hlp, hres]
        · rw [if_neg hlp]
          constructor
          · intro h
            exact absurd h (renderGenerate_not_reuse st p r t resp res)
          · rintro ⟨-, h, -⟩
            exact absurd h hlp
  · intro st p r t resp hne
    show renderCore st p r t resp = _
    cases hres : st.last_results with
    | none =>
      simp only [renderCore, hres]
      unfold renderGenerate
      rw [if_neg hne]
    | some res' =>
      simp only [renderCore, hres]
      rw [if_neg hne]
      unfold renderGenerate
      rw [if_neg hne]

/-- Witness for the amended C5: an exact tuple match reuses the stored
result, and a count change leaves the state untouched and idle. -/
theorem C5_reuse_iff_w :
    (render ⟨some pMS5, some ("R", "g.docx", ["R"])⟩ pMS5 false rW tW respEW).2 =
      RenderAction.reuse ("R", "g.docx", ["R"]) ∧
    render ⟨some pMS5, some ("R", "g.docx", ["R"])⟩ pMS6 false rW tW respEW =
      (⟨some pMS5, some ("R", "g.docx", ["R"])⟩, RenderAction.idle) :=
  ⟨(C5_reuse_iff.1 ⟨some pMS5, some ("R", "g.docx", ["R"])⟩ pMS5 false rW tW respEW
      ("R", "g.docx", ["R"])).mpr ⟨rfl, rfl, rfl⟩,
    C5_reuse_iff.2 ⟨some pMS5, some ("R", "g.docx", ["R"])⟩ pMS6 rW tW respEW (by decide)⟩
